import Mathlib

/-!
# Coherence evaluator, veto gate and mesh relay

A shallow embedding of the threshold-gated coherence check found in
`src/main.c` (the VLC node, the DPO node and the QR claims node, three
programs concatenated in one file), `src/fpt_r5f.c` and
`src/psi_zigbee_swarm.c`, together with the voter of `src/aie_tmr_reg.c` and
the ART update of `src/embedded_art_nrf.c`.

Conventions of the embedding.

* A `uint8_t` is a `Fin 256`; a 64-byte array is a list of bytes of length 64.
* A `float` or `double` value is the rational number it holds, and a literal
  is the value of its type nearest to the decimal: `0.997f` is the binary32
  number `4181721/4194304`, the `double` literal `0.997` the binary64 number
  `8980177656976769/9007199254740992`, and `float vigilance = 0.8` holds
  `13421773/16777216`.
* The byte versions of `calc_resonance` accumulate integers below `2^24` in
  absolute value, which is exact in `float`; the one division that follows
  is taken exactly.
* The float operations of `swarm_art_update` are parameters (`FloatOps`):
  its theorem holds whatever their rounding.
* The DPO node, which calls `sqrtf`, `logf` and `expf`, is modelled over an
  ordered field with those functions as parameters and with decimal
  constants; its theorems take the real numbers and the real functions, as
  the statements about it are worded.
* A handler is a function from the node state and the inbound buffer to the
  new state and the list of externally visible calls it makes, in order.
  A handler that returns at its length guard yields the unchanged state and
  no call.  Behaviour the C standard leaves undefined (a read past the end of
  the inbound buffer, a float to `uint8_t` conversion of a value whose
  integral part is outside `0..255`) is an explicit `Fault`.
-/

set_option autoImplicit false

/-- A `uint8_t`. -/
abbrev Byte := Fin 256

/-- A `uint8_t[64]` array (`glyph_data`, `ref_glyph`). -/
abbrev Glyph := { l : List Byte // l.length = 64 }

/-- Array subscript `g[i]` for `0 <= i < 64`. -/
def Glyph.at (g : Glyph) (i : Fin 64) : Byte :=
  g.val.get (i.cast g.property.symm)

/-- The glyph all of whose 64 bytes are `b`. -/
def Glyph.const (b : Byte) : Glyph := ⟨List.replicate 64 b, List.length_replicate 64 b⟩

/-- GPIO lines named in the sources. -/
inductive Pin
  | led_red
  | LED_RED
  | VETO_PIN
deriving DecidableEq, Repr

/-- Externally visible calls made by the handlers, in program order. -/
inductive Event
  | LOG_ERR (R : ℚ)
  | LOG_WRN (R : ℚ)
  | LOG_INF (R : ℚ)
  | LOG_ERR_layers (layer_count : Int)
  | bt_mesh_model_send (payload : List Byte)
  | AF_DataRequest (len : Nat) (data : List Byte)
  | gpio_pin_set (pin : Pin) (level : Nat)
  | k_sleep (msec : Nat)
  | xil_gpio_set (pin : Pin)
  | xil_gpio_clr (pin : Pin)
  | xil_printf (R : ℚ)
deriving DecidableEq

/-- Undefined behaviour a handler can run into. -/
inductive Fault
  | read_past_buffer
  | float_cast_out_of_range
deriving DecidableEq, Repr

/-- The event is a `bt_mesh_model_send` call. -/
def Event.isSend : Event → Bool
  | .bt_mesh_model_send _ => true
  | _ => false

/-- `#define QGH_THRESHOLD 0.997f` (main.c lines 17 and 185): the binary32
number nearest to 0.997, which is `16726884 / 2^24`. -/
def QGH_THRESHOLD : ℚ := 4181721 / 4194304

/-- The `float` literal `0.997f` of fpt_r5f.c line 12, the same binary32
number as `QGH_THRESHOLD`. -/
def f32_0_997 : ℚ := 4181721 / 4194304

/-- The `double` literal `0.997` of psi_zigbee_swarm.c line 6: the binary64
number nearest to 0.997, which is `8980177656976769 / 2^53`. -/
def f64_0_997 : ℚ := 8980177656976769 / 9007199254740992

/-- `memcpy(dst, buf + off, 64)`: the 64 bytes of `buf` from offset `off`,
or nothing when they are not all inside the buffer. -/
def memcpy64 (buf : List Byte) (off : Nat) : Option Glyph :=
  if h : off + 64 ≤ buf.length then
    some ⟨(buf.drop off).take 64, by rw [List.length_take, List.length_drop]; omega⟩
  else none

/-- The conversion `(uint8_t)x` of a float: the fractional part is discarded
(truncation toward zero); undefined when the integral part is not in `0..255`. -/
def f2u8 (x : ℚ) : Option Byte :=
  let t : Int := if 0 ≤ x then ⌊x⌋ else ⌈x⌉
  if h : 0 ≤ t ∧ t < 256 then some ⟨t.toNat, by omega⟩ else none

/-- The centered product `(g1[i] - 128) * (g2[i] - 128)`, computed in `int`. -/
def centered_prod (g1 g2 : Glyph) (i : Fin 64) : Int :=
  (((g1.at i).val : Int) - 128) * (((g2.at i).val : Int) - 128)

/-- The loop `for (i = 0; i < 64; i++) dot += (g1[i] - 128) * (g2[i] - 128);`
started from `dot = 0.0f`, shared by the VLC and the QR `calc_resonance`. -/
def centered_dot (g1 g2 : Glyph) : ℚ :=
  (List.finRange 64).foldl (fun dot i => dot + ((centered_prod g1 g2 i : Int) : ℚ)) 0

namespace VLC

/-- Static state of the VLC node: `mesh_coherence` and `glyph_data`. -/
structure Node where
  mesh_coherence : ℚ
  glyph_data : Glyph
deriving DecidableEq

/-- Initial state: `mesh_coherence = 1.0f`, `glyph_data` zero-initialised. -/
def Node.init : Node := ⟨1, Glyph.const 0⟩

/-- `calc_resonance` of the VLC node (main.c lines 23-29). -/
def calc_resonance (g1 g2 : Glyph) : ℚ :=
  let dot := centered_dot g1 g2
  dot / (64 * 255)

/-- `vlc_msg_handler` (main.c lines 32-57); `len` is `buf.length`. -/
def vlc_msg_handler (s : Node) (buf : List Byte) : Except Fault (Node × List Event) :=
  if buf.length < 64 then .ok (s, [])
  else
    match buf.get? 0, memcpy64 buf 1 with
    | some b0, some glyph_data =>
      let R_neighbor : ℚ := (b0.val : ℚ) / 255
      let R_local := calc_resonance glyph_data glyph_data
      let mesh_coherence := min R_local R_neighbor
      let log :=
        if mesh_coherence < QGH_THRESHOLD then Event.LOG_ERR mesh_coherence
        else Event.LOG_INF mesh_coherence
      match f2u8 (mesh_coherence * 255) with
      | some r0 =>
        .ok (⟨mesh_coherence, glyph_data⟩, [log, .bt_mesh_model_send (r0 :: glyph_data.val)])
      | none => .error .float_cast_out_of_range
    | _, _ => .error .read_past_buffer

end VLC

namespace QR

/-- Static state of the QR claims node: `mesh_coherence`, the `glyph_data`
it shares with the first program of main.c, and `ref_glyph`. -/
structure Node where
  mesh_coherence : ℚ
  glyph_data : Glyph
  ref_glyph : Glyph
deriving DecidableEq

/-- Initial state: `mesh_coherence = 1.0f`, both arrays zero-initialised. -/
def Node.init : Node := ⟨1, Glyph.const 0, Glyph.const 0⟩

/-- `calc_resonance` of the QR node (main.c lines 216-222),
`REF_GLYPH_SIZE` being 64. -/
def calc_resonance (g1 g2 : Glyph) : ℚ :=
  let dot := centered_dot g1 g2
  dot / (64 * 255 / 2)

/-- `qr_claim_handler` (main.c lines 225-249); `len` is `buf.length`. -/
def qr_claim_handler (s : Node) (buf : List Byte) : Except Fault (Node × List Event) :=
  if buf.length < 65 then .ok (s, [])
  else
    match buf.get? 0, memcpy64 buf 1 with
    | some b0, some glyph_data =>
      let R_neighbor : ℚ := (b0.val : ℚ) / 255
      let R_local := calc_resonance glyph_data s.ref_glyph
      let mesh_coherence := min R_local R_neighbor
      let s1 : Node := ⟨mesh_coherence, glyph_data, s.ref_glyph⟩
      let layer_count : Int := 0
      if layer_count > 1 then .ok (s1, [.LOG_ERR_layers layer_count])
      else
        match f2u8 (mesh_coherence * 255) with
        | some r0 =>
          .ok (s1, [.bt_mesh_model_send (r0 :: glyph_data.val), .LOG_INF mesh_coherence])
        | none => .error .float_cast_out_of_range
    | _, _ => .error .read_past_buffer

/-- The two branches of `qr_work_handler` once `R` has been computed
(main.c lines 254-264). -/
def qr_work_branch (R : ℚ) (glyph_data : Glyph) : List Event :=
  if R ≥ QGH_THRESHOLD then
    [.LOG_INF R, .bt_mesh_model_send glyph_data.val]
  else
    [.LOG_WRN R, .gpio_pin_set .led_red 1, .k_sleep 200, .gpio_pin_set .led_red 0]

/-- `qr_work_handler` (main.c lines 252-265); it changes no state. -/
def qr_work_handler (s : Node) : List Event :=
  let R := calc_resonance s.glyph_data s.ref_glyph
  qr_work_branch R s.glyph_data

end QR

/-- The integer sum the `calc_resonance` loop accumulates. -/
def centered_sum (g1 g2 : Glyph) : Int :=
  ((List.finRange 64).map (centered_prod g1 g2)).sum

/-- The value `fminf(R_local, R_neighbor)` that `vlc_msg_handler` stores in
`mesh_coherence` for score byte `b0` and received glyph `g`. -/
def VLC.coherence_of (b0 : Byte) (g : Glyph) : ℚ :=
  min (VLC.calc_resonance g g) ((b0.val : ℚ) / 255)

/-- The value `fminf(R_local, R_neighbor)` that `qr_claim_handler` stores in
`mesh_coherence` for reference glyph `ref`, score byte `b0` and received
glyph `g`. -/
def QR.coherence_of (ref : Glyph) (b0 : Byte) (g : Glyph) : ℚ :=
  min (QR.calc_resonance g ref) ((b0.val : ℚ) / 255)

/-- The centred energy `sum over i < 64 of (a[i] - 128)^2` of a glyph. -/
def energy (a : Glyph) : Int :=
  (a.val.map (fun b => ((b.val : Int) - 128) ^ 2)).sum

namespace DPO

/-- The loop `for (i = 0; i < 64; i++) dot += glyph1[i] * glyph2[i];` of the
DPO node's `calc_resonance`, started from `dot = 0.0f`. -/
def dot_loop {K : Type} [Field K] (glyph1 glyph2 : Fin 64 → K) : K :=
  (List.finRange 64).foldl (fun dot i => dot + glyph1 i * glyph2 i) 0

/-- `calc_resonance` of the DPO node (main.c lines 108-116) over an ordered
field `K`, the library function `sqrtf` being a parameter.  `sqrtf` of a
negative number is not a number, and so is everything computed from it:
that result is `none`. -/
def calc_resonance {K : Type} [LinearOrderedField K] (sqrtf : K → K)
    (glyph1 glyph2 : Fin 64 → K) : Option K :=
  let dot := dot_loop glyph1 glyph2
  if dot < 0 then none
  else
    let norm1 := sqrtf dot
    let norm2 := sqrtf dot
    some (dot / (norm1 * norm2 + 1 / 1000000))

/-- The dot product `sum over i < 64 of a[i] * b[i]`. -/
def dot {K : Type} [Field K] (a b : Fin 64 → K) : K :=
  ∑ i, a i * b i

/-- The normalized dot product as the specification words it:
`dot(a,b) / (norm(a) * norm(b) + eps)` with `norm(x) = sqrt(dot(x,x))` and
`eps = 1e-6`. -/
def normalized_dot {K : Type} [Field K] (sqrt : K → K) (a b : Fin 64 → K) : K :=
  dot a b / (sqrt (dot a a) * sqrt (dot b b) + 1 / 1000000)

end DPO

/-- The raw dot product `sum over i < 64 of a[i] * b[i]` of two byte signals. -/
def raw_dot (a b : Glyph) : Int :=
  ((List.finRange 64).map (fun i => ((a.at i).val : Int) * ((b.at i).val : Int))).sum

/-- `tmr_vote` (aie_tmr_reg.c lines 2-6), the floats compared with `==`. -/
def tmr_vote (a b c : ℚ) : ℚ :=
  if a = b then a
  else if a = c then a
  else b

namespace DPO

/-- `#define BETA 0.1f`. -/
def BETA {K : Type} [Field K] : K := 1 / 10

/-- `#define QGH_THRESHOLD 0.997f` of the DPO program, in the field `K`. -/
def QGH_THRESHOLD {K : Type} [Field K] : K := 997 / 1000

/-- Static state of the DPO node touched by `dpo_alignment_handler`:
`preference_pairs[0].prompt`, `preference_pairs[0].winner`, `policy_logits`
and `ref_logits`. -/
structure Node (K : Type) where
  prompt : Glyph
  winner : Glyph
  policy_logits : Fin 128 → K
  ref_logits : Fin 128 → K

/-- Externally visible calls of `dpo_alignment_handler`. -/
inductive Event (K : Type)
  | LOG_WRN (R : K)
  | LOG_INF (loss R : K)
  | bt_mesh_model_send (payload : List Byte)

/-- The conversion `(uint8_t)x` of a float in an ordered field with a floor:
truncation toward zero, undefined when the integral part is not in `0..255`. -/
def f2u8 {K : Type} [LinearOrderedField K] [FloorRing K] (x : K) : Option Byte :=
  let t : Int := if 0 ≤ x then ⌊x⌋ else ⌈x⌉
  if h : 0 ≤ t ∧ t < 256 then some ⟨t.toNat, by omega⟩ else none

/-- The `delta` of `dpo_loss` (main.c line 96); the four arguments are the
values `log_prob_w[0]`, `log_prob_l[0]`, `log_prob_w_ref[0]` and
`log_prob_l_ref[0]` the pointers are dereferenced for. -/
def dpo_delta {K : Type} [Field K]
    (log_prob_w log_prob_l log_prob_w_ref log_prob_l_ref : K) : K :=
  BETA * (log_prob_w - log_prob_w_ref - (log_prob_l - log_prob_l_ref))

/-- `dpo_loss` (main.c lines 95-98), the library functions `logf` and `expf`
being parameters. -/
def dpo_loss {K : Type} [Field K] (logf expf : K → K)
    (log_prob_w log_prob_l log_prob_w_ref log_prob_l_ref : K) : K :=
  let delta := dpo_delta log_prob_w log_prob_l log_prob_w_ref log_prob_l_ref;
  -logf (1 / (1 + expf (-delta)))

/-- `dpo_alignment_handler` (main.c lines 119-152); `len` is `buf.length`.
`reply2` and `reply3` are the indeterminate contents of the two bytes of
`reply[4]` the handler never writes. -/
def dpo_alignment_handler {K : Type} [LinearOrderedField K] [FloorRing K]
    (logf expf : K → K) (reply2 reply3 : Byte) (s : Node K) (buf : List Byte) :
    Except Fault (Node K × List (Event K)) :=
  if h : buf.length < 128 then .ok (s, [])
  else
    match memcpy64 buf 0, memcpy64 buf 64 with
    | some prompt, some winner =>
      let policy_logits : Fin 128 → K := fun i =>
        ((buf.get ⟨i.val % buf.length, Nat.mod_lt _ (by omega)⟩).val : K) / 255
      let ref_logits : Fin 128 → K := fun i => policy_logits i * (9 / 10)
      let loss := dpo_loss logf expf
        (policy_logits 0) (policy_logits 64) (ref_logits 0) (ref_logits 64)
      let R := 1 - loss
      let s1 : Node K := ⟨prompt, winner, policy_logits, ref_logits⟩
      if R < QGH_THRESHOLD then .ok (s1, [.LOG_WRN R])
      else
        match f2u8 (R * 255), f2u8 (loss * 100) with
        | some r0, some r1 =>
          .ok (s1, [.bt_mesh_model_send [r0, r1, reply2, reply3], .LOG_INF loss R])
        | _, _ => .error .float_cast_out_of_range
    | _, _ => .error .read_past_buffer

end DPO

/-- Round to nearest, ties to even, with a `p`-bit significand and an
unbounded exponent: the rounding of binary32 for `p = 24` and of binary64
for `p = 53`, away from overflow and subnormal numbers. -/
def rne (p : ℕ) (x : ℚ) : ℚ :=
  if x = 0 then 0
  else
    let e : ℤ := Int.log 2 |x|
    let ulp : ℚ := (2 : ℚ) ^ (e - ((p : ℤ) - 1))
    let q : ℚ := x / ulp
    let f : ℤ := ⌊q⌋
    let r : ℚ := q - f
    let n : ℤ :=
      if r < 1 / 2 then f
      else if 1 / 2 < r then f + 1
      else if f % 2 = 0 then f
      else f + 1
    n * ulp

/-- `float vigilance = 0.8;` (art1_nrf.c line 5): the binary32 number nearest
to 0.8, which is `13421773 / 2^24`. -/
def vigilance : ℚ := 13421773 / 16777216

/-- The `double` literal `0.1` of embedded_art_nrf.c line 18: the binary64
number nearest to 0.1, which is `3602879701896397 / 2^55`. -/
def f64_0_1 : ℚ := 3602879701896397 / 36028797018963968

theorem foldl_add_intCast {ι : Type} (f : ι → Int) (l : List ι) (a : ℚ) :
    l.foldl (fun dot i => dot + ((f i : Int) : ℚ)) a = a + (((l.map f).sum : Int) : ℚ) := by
  induction l generalizing a with
  | nil => simp
  | cons x xs ih =>
    simp only [List.foldl_cons, List.map_cons, List.sum_cons]
    rw [ih]
    push_cast
    ring

theorem centered_dot_eq_sum (g1 g2 : Glyph) :
    centered_dot g1 g2 = ((centered_sum g1 g2 : Int) : ℚ) := by
  unfold centered_dot centered_sum
  rw [foldl_add_intCast]
  simp

theorem centered_sum_self_nonneg (g : Glyph) : 0 ≤ centered_sum g g := by
  unfold centered_sum
  apply List.sum_nonneg
  intro x hx
  rw [List.mem_map] at hx
  obtain ⟨i, -, rfl⟩ := hx
  unfold centered_prod
  exact mul_self_nonneg _

theorem f2u8_isSome (x : ℚ) (h0 : -1 < x) (h1 : x < 256) : ∃ r, f2u8 x = some r := by
  unfold f2u8
  have ht : 0 ≤ (if 0 ≤ x then ⌊x⌋ else ⌈x⌉) ∧ (if 0 ≤ x then ⌊x⌋ else ⌈x⌉) < 256 := by
    by_cases hx : 0 ≤ x
    · rw [if_pos hx]
      exact ⟨Int.floor_nonneg.mpr hx, Int.floor_lt.mpr (by exact_mod_cast h1)⟩
    · rw [if_neg hx]
      push_neg at hx
      constructor
      · have : (-1 : ℤ) < ⌈x⌉ := Int.lt_ceil.mpr (by exact_mod_cast h0)
        omega
      · have : ⌈x⌉ ≤ 0 := Int.ceil_le.mpr (by exact_mod_cast hx.le)
        omega
  simp only [ht, and_self, dite_true]
  exact ⟨_, rfl⟩

theorem f2u8_none_of_le (x : ℚ) (h : x ≤ -1) : f2u8 x = none := by
  unfold f2u8
  have hx : ¬ (0 ≤ x) := by linarith
  have ht : ¬ (0 ≤ (if 0 ≤ x then ⌊x⌋ else ⌈x⌉) ∧ (if 0 ≤ x then ⌊x⌋ else ⌈x⌉) < 256) := by
    rw [if_neg hx]
    have : ⌈x⌉ ≤ -1 := Int.ceil_le.mpr (by exact_mod_cast h)
    omega
  simp only [ht, dite_false]

theorem memcpy64_of_le (buf : List Byte) (off : Nat) (h : off + 64 ≤ buf.length) :
    ∃ g : Glyph, memcpy64 buf off = some g ∧ g.val = (buf.drop off).take 64 := by
  unfold memcpy64
  rw [dif_pos h]
  exact ⟨_, rfl, rfl⟩

theorem get?_zero_of_pos (buf : List Byte) (h : 0 < buf.length) :
    ∃ b0, buf.get? 0 = some b0 := by
  cases buf with
  | nil => simp at h
  | cons b bs => exact ⟨b, rfl⟩

theorem f2u8_of_floor (x : ℚ) (n : Byte) (h0 : (n.val : ℚ) ≤ x) (h1 : x < (n.val : ℚ) + 1) :
    f2u8 x = some n := by
  have hx : 0 ≤ x := le_trans (by positivity) h0
  have hfl : ⌊x⌋ = (n.val : Int) := by
    rw [Int.floor_eq_iff]
    exact ⟨by exact_mod_cast h0, by exact_mod_cast h1⟩
  unfold f2u8
  simp only [hx, if_true, hfl]
  have hn := n.isLt
  rw [dif_pos ⟨by omega, by omega⟩]
  congr 1

theorem centered_sum_const_zero : centered_sum (Glyph.const 0) (Glyph.const 0) = 1048576 := by
  decide

theorem byte_ratio_bounds (b0 : Byte) : 0 ≤ (b0.val : ℚ) / 255 ∧ (b0.val : ℚ) / 255 ≤ 1 := by
  have h : (b0.val : ℚ) ≤ 255 := by
    have := b0.isLt
    exact_mod_cast (by omega : b0.val ≤ 255)
  constructor
  · positivity
  · rw [div_le_one (by norm_num)]
    exact h

theorem VLC.calc_resonance_self_nonneg (g : Glyph) : 0 ≤ VLC.calc_resonance g g := by
  unfold VLC.calc_resonance
  rw [centered_dot_eq_sum]
  have h : (0 : ℚ) ≤ ((centered_sum g g : Int) : ℚ) := by
    exact_mod_cast centered_sum_self_nonneg g
  positivity

theorem VLC.coherence_of_bounds (b0 : Byte) (g : Glyph) :
    0 ≤ VLC.coherence_of b0 g ∧ VLC.coherence_of b0 g ≤ 1 := by
  unfold VLC.coherence_of
  have hb := byte_ratio_bounds b0
  exact ⟨le_min (VLC.calc_resonance_self_nonneg g) hb.1, le_trans (min_le_right _ _) hb.2⟩

theorem QR.coherence_of_le_one (ref : Glyph) (b0 : Byte) (g : Glyph) :
    QR.coherence_of ref b0 g ≤ 1 := by
  unfold QR.coherence_of
  exact le_trans (min_le_right _ _) (byte_ratio_bounds b0).2

theorem VLC.vlc_msg_handler_accept (s : VLC.Node) (buf : List Byte) (b0 r0 : Byte) (g : Glyph)
    (hlen : 64 ≤ buf.length) (hb : buf.get? 0 = some b0) (hg : memcpy64 buf 1 = some g)
    (hr : f2u8 (VLC.coherence_of b0 g * 255) = some r0) :
    VLC.vlc_msg_handler s buf
      = .ok (⟨VLC.coherence_of b0 g, g⟩,
          [if VLC.coherence_of b0 g < QGH_THRESHOLD then Event.LOG_ERR (VLC.coherence_of b0 g)
            else Event.LOG_INF (VLC.coherence_of b0 g),
           .bt_mesh_model_send (r0 :: g.val)]) := by
  unfold VLC.vlc_msg_handler
  rw [if_neg (by omega), hb, hg]
  unfold VLC.coherence_of at hr
  simp only [hr]
  rfl

theorem QR.qr_claim_handler_accept (s : QR.Node) (buf : List Byte) (b0 r0 : Byte) (g : Glyph)
    (hlen : 65 ≤ buf.length) (hb : buf.get? 0 = some b0) (hg : memcpy64 buf 1 = some g)
    (hr : f2u8 (QR.coherence_of s.ref_glyph b0 g * 255) = some r0) :
    QR.qr_claim_handler s buf
      = .ok (⟨QR.coherence_of s.ref_glyph b0 g, g, s.ref_glyph⟩,
          [.bt_mesh_model_send (r0 :: g.val), .LOG_INF (QR.coherence_of s.ref_glyph b0 g)]) := by
  unfold QR.qr_claim_handler
  rw [if_neg (by omega), hb, hg]
  unfold QR.coherence_of at hr
  simp only [hr]
  rfl

theorem QR.qr_claim_handler_fault (s : QR.Node) (buf : List Byte) (b0 : Byte) (g : Glyph)
    (hlen : 65 ≤ buf.length) (hb : buf.get? 0 = some b0) (hg : memcpy64 buf 1 = some g)
    (hr : f2u8 (QR.coherence_of s.ref_glyph b0 g * 255) = none) :
    QR.qr_claim_handler s buf = .error .float_cast_out_of_range := by
  unfold QR.qr_claim_handler
  rw [if_neg (by omega), hb, hg]
  unfold QR.coherence_of at hr
  simp only [hr]
  rfl

theorem map_get_cast_finRange {α β : Type} (F : α → β) (l : List α) (n : Nat)
    (h : l.length = n) :
    (List.finRange n).map (fun i => F (l.get (i.cast h.symm))) = l.map F := by
  subst h
  simp only [Fin.cast_refl]
  conv_rhs => rw [← List.finRange_map_get l]
  rw [List.map_map]
  rfl

theorem map_at_finRange (F : Byte → Int) (g : Glyph) :
    (List.finRange 64).map (fun i => F (g.at i)) = g.val.map F :=
  map_get_cast_finRange F g.val 64 g.property

theorem centered_sum_self_eq_energy (g : Glyph) : centered_sum g g = energy g := by
  unfold centered_sum energy
  rw [← map_at_finRange]
  congr 1
  apply List.map_congr_left
  intro i _
  unfold centered_prod
  ring

theorem centered_sum_const_255_zero :
    centered_sum (Glyph.const 255) (Glyph.const 0) = -1040384 := by
  decide

theorem centered_sum_const_one : centered_sum (Glyph.const 1) (Glyph.const 1) = 1032256 := by
  decide

theorem foldl_add_eq_sum {K ι : Type} [Field K] (f : ι → K) (l : List ι) (a : K) :
    l.foldl (fun dot i => dot + f i) a = a + (l.map f).sum := by
  induction l generalizing a with
  | nil => simp
  | cons x xs ih =>
    simp only [List.foldl_cons, List.map_cons, List.sum_cons]
    rw [ih]
    ring

theorem DPO.dot_loop_eq_dot {K : Type} [Field K] (a b : Fin 64 → K) :
    DPO.dot_loop a b = DPO.dot a b := by
  unfold DPO.dot_loop DPO.dot
  rw [foldl_add_eq_sum, zero_add, Fin.sum_univ_def]

theorem DPO.calc_resonance_real (a b : Fin 64 → ℝ) :
    DPO.calc_resonance Real.sqrt a b
      = if DPO.dot a b < 0 then none
        else some (DPO.dot a b / (DPO.dot a b + 1 / 1000000)) := by
  unfold DPO.calc_resonance
  rw [DPO.dot_loop_eq_dot]
  by_cases h : DPO.dot a b < 0
  · simp [h]
  · simp only [h, if_false]
    rw [Real.mul_self_sqrt (not_lt.mp h)]

theorem VLC.threshold_le_coherence_iff (b0 : Byte) (g : Glyph) :
    QGH_THRESHOLD ≤ VLC.coherence_of b0 g ↔ b0 = 255 ∧ 16272 ≤ energy g := by
  unfold VLC.coherence_of VLC.calc_resonance QGH_THRESHOLD
  rw [centered_dot_eq_sum, centered_sum_self_eq_energy, le_min_iff]
  have h1 : (4181721 / 4194304 : ℚ) ≤ ((energy g : Int) : ℚ) / (64 * 255)
      ↔ 16272 ≤ energy g := by
    rw [le_div_iff₀ (by norm_num)]
    constructor
    · intro h
      have h' : (68245686720 : ℚ) ≤ ((energy g : Int) : ℚ) * 4194304 := by linarith
      have h'' : (68245686720 : Int) ≤ energy g * 4194304 := by exact_mod_cast h'
      omega
    · intro h
      have h' : ((16272 : Int) : ℚ) ≤ ((energy g : Int) : ℚ) := by exact_mod_cast h
      push_cast at h'
      linarith
  have h2 : (4181721 / 4194304 : ℚ) ≤ ((b0.val : ℕ) : ℚ) / 255 ↔ b0 = 255 := by
    rw [le_div_iff₀ (by norm_num)]
    have hlt := b0.isLt
    constructor
    · intro h
      have h' : (1066338855 : ℚ) ≤ ((b0.val : ℕ) : ℚ) * 4194304 := by linarith
      have h'' : (1066338855 : ℕ) ≤ b0.val * 4194304 := by exact_mod_cast h'
      apply Fin.ext
      show b0.val = 255
      omega
    · intro h
      subst h
      rw [show ((255 : Byte).val) = 255 from rfl]
      norm_num
  rw [h1, h2]
  exact and_comm

theorem DPO.dpo_loss_real (w l wref lref : ℝ) :
    DPO.dpo_loss Real.log Real.exp w l wref lref
      = Real.log (1 + Real.exp (-(DPO.dpo_delta w l wref lref))) := by
  unfold DPO.dpo_loss
  simp only [one_div, Real.log_inv, neg_neg]

theorem log_one_add_exp_neg_lower_bound (d : ℝ) (hd : d ≤ 1 / 100) :
    3 / 1000 < Real.log (1 + Real.exp (-d)) := by
  have h1 : (99 / 100 : ℝ) ≤ Real.exp (-d) := by
    have := Real.add_one_le_exp (-d)
    linarith
  have h2 : (997 / 1000 : ℝ) ≤ Real.exp (-(3 / 1000)) := by
    have := Real.add_one_le_exp (-(3 / 1000 : ℝ))
    linarith
  have h3 : Real.exp (3 / 1000) < 199 / 100 := by
    have hpos := Real.exp_pos (-(3 / 1000 : ℝ))
    have hmul : Real.exp (3 / 1000) * Real.exp (-(3 / 1000 : ℝ)) = 1 := by
      rw [← Real.exp_add]
      simp
    have hle : Real.exp (3 / 1000) * (997 / 1000) ≤ 1 := by
      rw [← hmul]
      exact mul_le_mul_of_nonneg_left h2 (Real.exp_pos _).le
    linarith
  rw [Real.lt_log_iff_exp_lt (by linarith)]
  linarith

theorem byte_ratio_bounds_real (b : Byte) :
    0 ≤ ((b.val : ℕ) : ℝ) / 255 ∧ ((b.val : ℕ) : ℝ) / 255 ≤ 1 := by
  have h : ((b.val : ℕ) : ℝ) ≤ 255 := by
    have := b.isLt
    exact_mod_cast (by omega : b.val ≤ 255)
  constructor
  · positivity
  · rw [div_le_one (by norm_num)]
    exact h

theorem DPO.dpo_delta_bounds (p0 p64 : ℝ) (h0 : 0 ≤ p0 ∧ p0 ≤ 1) (h64 : 0 ≤ p64 ∧ p64 ≤ 1) :
    -(1 / 100) ≤ DPO.dpo_delta p0 p64 (p0 * (9 / 10)) (p64 * (9 / 10)) ∧
    DPO.dpo_delta p0 p64 (p0 * (9 / 10)) (p64 * (9 / 10)) ≤ 1 / 100 := by
  unfold DPO.dpo_delta DPO.BETA
  constructor <;> nlinarith [h0.1, h0.2, h64.1, h64.2]

theorem log_two_eq (x : ℚ) (e : ℤ) (h1 : (2 : ℚ) ^ e ≤ |x|) (h2 : |x| < (2 : ℚ) ^ (e + 1)) :
    Int.log 2 |x| = e := by
  have hpos : 0 < |x| := lt_of_lt_of_le (zpow_pos (by norm_num) e) h1
  have ha : e ≤ Int.log 2 |x| := by
    rw [← Int.zpow_le_iff_le_log (by norm_num) hpos]
    exact_mod_cast h1
  have hb : Int.log 2 |x| < e + 1 := by
    rw [← Int.lt_zpow_iff_log_lt (by norm_num) hpos]
    exact_mod_cast h2
  omega

theorem rne_eq (p : ℕ) (x : ℚ) (e f : ℤ) (h1 : (2 : ℚ) ^ e ≤ |x|)
    (h2 : |x| < (2 : ℚ) ^ (e + 1))
    (hf1 : (f : ℚ) ≤ x / (2 : ℚ) ^ (e - ((p : ℤ) - 1)))
    (hf2 : x / (2 : ℚ) ^ (e - ((p : ℤ) - 1)) < (f : ℚ) + 1) :
    rne p x
      = ((if x / (2 : ℚ) ^ (e - ((p : ℤ) - 1)) - f < 1 / 2 then f
          else if 1 / 2 < x / (2 : ℚ) ^ (e - ((p : ℤ) - 1)) - f then f + 1
          else if f % 2 = 0 then f
          else f + 1 : ℤ) : ℚ) * (2 : ℚ) ^ (e - ((p : ℤ) - 1)) := by
  have hx : x ≠ 0 := by
    intro h0
    rw [h0, abs_zero] at h1
    exact absurd h1 (not_le.mpr (zpow_pos (by norm_num) e))
  have hlog := log_two_eq x e h1 h2
  have hfl : ⌊x / (2 : ℚ) ^ (e - ((p : ℤ) - 1))⌋ = f := by
    rw [Int.floor_eq_iff]
    exact ⟨hf1, hf2⟩
  unfold rne
  rw [if_neg hx]
  simp only [hlog, hfl]

theorem QGH_THRESHOLD_nearest : rne 24 (997 / 1000) = QGH_THRESHOLD := by
  rw [rne_eq 24 (997 / 1000) (-1) 16726884 (by norm_num [abs_of_pos])
    (by norm_num [abs_of_pos]) (by norm_num) (by norm_num)]
  norm_num [QGH_THRESHOLD]

theorem f32_0_997_nearest : rne 24 (997 / 1000) = f32_0_997 :=
  QGH_THRESHOLD_nearest

theorem f64_0_997_nearest : rne 53 (997 / 1000) = f64_0_997 := by
  rw [rne_eq 53 (997 / 1000) (-1) 8980177656976769 (by norm_num [abs_of_pos])
    (by norm_num [abs_of_pos]) (by norm_num) (by norm_num)]
  norm_num [f64_0_997]

theorem vigilance_nearest : rne 24 (4 / 5) = vigilance := by
  rw [rne_eq 24 (4 / 5) (-1) 13421772 (by norm_num [abs_of_pos])
    (by norm_num [abs_of_pos]) (by norm_num) (by norm_num)]
  norm_num [vigilance]

theorem f64_0_1_nearest : rne 53 (1 / 10) = f64_0_1 := by
  rw [rne_eq 53 (1 / 10) (-4) 7205759403792793 (by norm_num [abs_of_pos])
    (by norm_num [abs_of_pos]) (by norm_num) (by norm_num)]
  norm_num [f64_0_1]

/-- C2, counterexample: on the accepted all-zero 65-byte message both
handlers end with `mesh_coherence = 0`, which is below the threshold, and
both nevertheless call `bt_mesh_model_send` with the 65-byte reply. -/
theorem veto_suppresses_send_counterexample :
    VLC.vlc_msg_handler VLC.Node.init (List.replicate 65 0)
      = .ok (⟨0, Glyph.const 0⟩,
          [.LOG_ERR 0, .bt_mesh_model_send (List.replicate 65 0)]) ∧
    QR.qr_claim_handler QR.Node.init (List.replicate 65 0)
      = .ok (⟨0, Glyph.const 0, Glyph.const 0⟩,
          [.bt_mesh_model_send (List.replicate 65 0), .LOG_INF 0]) ∧
    (0 : ℚ) < QGH_THRESHOLD := by
  have hv : VLC.coherence_of 0 (Glyph.const 0) = 0 := by
    norm_num [VLC.coherence_of, VLC.calc_resonance, centered_dot_eq_sum, centered_sum_const_zero]
  have hq : QR.coherence_of (Glyph.const 0) 0 (Glyph.const 0) = 0 := by
    norm_num [QR.coherence_of, QR.calc_resonance, centered_dot_eq_sum, centered_sum_const_zero]
  refine ⟨?_, ?_, by norm_num [QGH_THRESHOLD]⟩
  · have h := VLC.vlc_msg_handler_accept VLC.Node.init (List.replicate 65 0) 0 0 (Glyph.const 0)
      (by decide) (by decide) (by decide)
      (by rw [hv]; exact f2u8_of_floor _ 0 (by norm_num) (by norm_num))
    rw [hv] at h
    rw [h]
    simp [QGH_THRESHOLD]
    rfl
  · have h := QR.qr_claim_handler_accept QR.Node.init (List.replicate 65 0) 0 0 (Glyph.const 0)
      (by decide) (by decide) (by decide)
      (by
        show f2u8 (QR.coherence_of (Glyph.const 0) 0 (Glyph.const 0) * 255) = some 0
        rw [hq]; exact f2u8_of_floor _ 0 (by norm_num) (by norm_num))
    have hq2 : QR.coherence_of QR.Node.init.ref_glyph 0 (Glyph.const 0) = 0 := hq
    rw [hq2] at h
    rw [h]
    rfl

/-- C2, amended: every inbound message of at least 65 bytes gets exactly one
`bt_mesh_model_send` call carrying the reply (score byte, then the 64 glyph
bytes), whatever the resulting coherence.  In `vlc_msg_handler` the
comparison with the threshold only selects the log line written before the
reply (error below the threshold, info otherwise); `qr_claim_handler` does
not compare the coherence with the threshold, and makes its one send unless
the conversion of the score byte is undefined (coherence times 255 at most
-1), where it faults before sending. -/
theorem reply_sent_whatever_coherence (s : VLC.Node) (q : QR.Node) (buf : List Byte)
    (h : 65 ≤ buf.length) :
    ∃ b0 g, buf.get? 0 = some b0 ∧ memcpy64 buf 1 = some g ∧
      (∃ r0, VLC.vlc_msg_handler s buf
        = .ok (⟨VLC.coherence_of b0 g, g⟩,
            [if VLC.coherence_of b0 g < QGH_THRESHOLD
              then Event.LOG_ERR (VLC.coherence_of b0 g)
              else Event.LOG_INF (VLC.coherence_of b0 g),
             .bt_mesh_model_send (r0 :: g.val)])) ∧
      (if QR.coherence_of q.ref_glyph b0 g * 255 ≤ -1 then
        QR.qr_claim_handler q buf = .error .float_cast_out_of_range
       else ∃ r0, QR.qr_claim_handler q buf
        = .ok (⟨QR.coherence_of q.ref_glyph b0 g, g, q.ref_glyph⟩,
            [.bt_mesh_model_send (r0 :: g.val),
             .LOG_INF (QR.coherence_of q.ref_glyph b0 g)])) := by
  obtain ⟨b0, hb⟩ := get?_zero_of_pos buf (by omega)
  obtain ⟨g, hg, -⟩ := memcpy64_of_le buf 1 (by omega)
  refine ⟨b0, g, hb, hg, ?_, ?_⟩
  · have hbd := VLC.coherence_of_bounds b0 g
    obtain ⟨r0, hr⟩ := f2u8_isSome (VLC.coherence_of b0 g * 255)
      (by nlinarith [hbd.1]) (by nlinarith [hbd.2])
    exact ⟨r0, VLC.vlc_msg_handler_accept s buf b0 r0 g (by omega) hb hg hr⟩
  · by_cases hc : QR.coherence_of q.ref_glyph b0 g * 255 ≤ -1
    · rw [if_pos hc]
      exact QR.qr_claim_handler_fault q buf b0 g h hb hg (f2u8_none_of_le _ hc)
    · rw [if_neg hc]
      have hle := QR.coherence_of_le_one q.ref_glyph b0 g
      obtain ⟨r0, hr⟩ := f2u8_isSome (QR.coherence_of q.ref_glyph b0 g * 255)
        (lt_of_not_ge hc) (by nlinarith [hle])
      exact ⟨r0, QR.qr_claim_handler_accept q buf b0 r0 g h hb hg hr⟩

/-- Witness for C2: the all-zero 65-byte message at the initial states. -/
theorem reply_sent_whatever_coherence_witness :
    65 ≤ (List.replicate 65 (0 : Byte)).length ∧
    ∃ b0 g, (List.replicate 65 (0 : Byte)).get? 0 = some b0 ∧
      memcpy64 (List.replicate 65 (0 : Byte)) 1 = some g ∧
      (∃ r0, VLC.vlc_msg_handler VLC.Node.init (List.replicate 65 0)
        = .ok (⟨VLC.coherence_of b0 g, g⟩,
            [if VLC.coherence_of b0 g < QGH_THRESHOLD
              then Event.LOG_ERR (VLC.coherence_of b0 g)
              else Event.LOG_INF (VLC.coherence_of b0 g),
             .bt_mesh_model_send (r0 :: g.val)])) ∧
      (if QR.coherence_of QR.Node.init.ref_glyph b0 g * 255 ≤ -1 then
        QR.qr_claim_handler QR.Node.init (List.replicate 65 0)
          = .error .float_cast_out_of_range
       else ∃ r0, QR.qr_claim_handler QR.Node.init (List.replicate 65 0)
        = .ok (⟨QR.coherence_of QR.Node.init.ref_glyph b0 g, g, QR.Node.init.ref_glyph⟩,
            [.bt_mesh_model_send (r0 :: g.val),
             .LOG_INF (QR.coherence_of QR.Node.init.ref_glyph b0 g)])) :=
  ⟨by decide, reply_sent_whatever_coherence VLC.Node.init QR.Node.init
    (List.replicate 65 0) (by decide)⟩

/-! ## Length guards -/

/-- C3, the code at the failing input: a 64-byte message passes the guard
`len < 64` of `vlc_msg_handler`, which then reads `buf[1..64]`, one byte
past the end of the buffer; the handler does not return at the guard as it
does for a 63-byte message, and as `qr_claim_handler`, whose guard is
`len < 65`, does for the same 64 bytes. -/
theorem vlc_msg_handler_accepts_64_bytes :
    VLC.vlc_msg_handler VLC.Node.init (List.replicate 64 0) = .error .read_past_buffer ∧
    VLC.vlc_msg_handler VLC.Node.init (List.replicate 64 0) ≠ .ok (VLC.Node.init, []) ∧
    VLC.vlc_msg_handler VLC.Node.init (List.replicate 63 0) = .ok (VLC.Node.init, []) ∧
    QR.qr_claim_handler QR.Node.init (List.replicate 64 0) = .ok (QR.Node.init, []) := by
  have h : VLC.vlc_msg_handler VLC.Node.init (List.replicate 64 0)
      = .error .read_past_buffer := by rfl
  refine ⟨h, ?_, by rfl, by rfl⟩
  rw [h]
  simp

/-- C4: `qr_claim_handler` returns at its guard, leaving `mesh_coherence`,
`glyph_data` and `ref_glyph` as they were and making no call, exactly for the
messages shorter than 65 bytes; a 10-byte message is one of them. -/
theorem qr_claim_handler_rejects_iff_short (s : QR.Node) (buf : List Byte) :
    (QR.qr_claim_handler s buf = .ok (s, []) ↔ buf.length < 65) ∧
    QR.qr_claim_handler s (List.replicate 10 0) = .ok (s, []) := by
  refine ⟨⟨?_, ?_⟩, by rfl⟩
  · intro hok
    by_contra hlen
    have h : 65 ≤ buf.length := by omega
    obtain ⟨b0, hb⟩ := get?_zero_of_pos buf (by omega)
    obtain ⟨g, hg, -⟩ := memcpy64_of_le buf 1 (by omega)
    cases hr : f2u8 (QR.coherence_of s.ref_glyph b0 g * 255) with
    | none =>
      rw [QR.qr_claim_handler_fault s buf b0 g h hb hg hr] at hok
      simp at hok
    | some r0 =>
      rw [QR.qr_claim_handler_accept s buf b0 r0 g h hb hg hr] at hok
      simp at hok
  · intro hlen
    unfold QR.qr_claim_handler
    rw [if_pos hlen]

/-! ## Range of the score -/

/-- C5, the code at the failing input: in the initial state of the QR node
(`ref_glyph` all zero) the 65-byte message of bytes 255 makes
`qr_claim_handler` store `fminf(R_local, R_neighbor) = -32512/255`, about
-127.5, in `mesh_coherence`; the scaled value -32512 is outside `0..255` and
its conversion to the reply's score byte is undefined. -/
theorem qr_claim_handler_negative_coherence :
    QR.calc_resonance (Glyph.const 255) QR.Node.init.ref_glyph = -32512 / 255 ∧
    QR.coherence_of QR.Node.init.ref_glyph 255 (Glyph.const 255) = -32512 / 255 ∧
    QR.coherence_of QR.Node.init.ref_glyph 255 (Glyph.const 255) < 0 ∧
    QR.coherence_of QR.Node.init.ref_glyph 255 (Glyph.const 255) * 255 = -32512 ∧
    QR.qr_claim_handler QR.Node.init (List.replicate 65 255)
      = .error .float_cast_out_of_range := by
  have hr : QR.calc_resonance (Glyph.const 255) QR.Node.init.ref_glyph = -32512 / 255 := by
    show QR.calc_resonance (Glyph.const 255) (Glyph.const 0) = -32512 / 255
    norm_num [QR.calc_resonance, centered_dot_eq_sum, centered_sum_const_255_zero]
  have hc : QR.coherence_of QR.Node.init.ref_glyph 255 (Glyph.const 255) = -32512 / 255 := by
    unfold QR.coherence_of
    rw [hr]
    exact min_eq_left (le_trans (by norm_num) (byte_ratio_bounds 255).1)
  refine ⟨hr, hc, by rw [hc]; norm_num, by rw [hc]; norm_num, ?_⟩
  exact QR.qr_claim_handler_fault QR.Node.init (List.replicate 65 255) 255 (Glyph.const 255)
    (by decide) (by decide) (by decide)
    (f2u8_none_of_le _ (by rw [hc]; norm_num))

/-- C6, the code at failing inputs: for two all-zero glyphs `calc_resonance`
returns 16384/255 (about 64.25) in the VLC node and 32768/255 (about 128.5)
in the QR node, both above 1; for an all-255 glyph against an all-zero glyph
it returns -16256/255 and -32512/255, both below 0. -/
theorem calc_resonance_outside_unit_interval :
    VLC.calc_resonance (Glyph.const 0) (Glyph.const 0) = 16384 / 255 ∧
    1 < VLC.calc_resonance (Glyph.const 0) (Glyph.const 0) ∧
    QR.calc_resonance (Glyph.const 0) (Glyph.const 0) = 32768 / 255 ∧
    1 < QR.calc_resonance (Glyph.const 0) (Glyph.const 0) ∧
    VLC.calc_resonance (Glyph.const 255) (Glyph.const 0) = -16256 / 255 ∧
    VLC.calc_resonance (Glyph.const 255) (Glyph.const 0) < 0 ∧
    QR.calc_resonance (Glyph.const 255) (Glyph.const 0) = -32512 / 255 ∧
    QR.calc_resonance (Glyph.const 255) (Glyph.const 0) < 0 := by
  have h1 : VLC.calc_resonance (Glyph.const 0) (Glyph.const 0) = 16384 / 255 := by
    norm_num [VLC.calc_resonance, centered_dot_eq_sum, centered_sum_const_zero]
  have h2 : QR.calc_resonance (Glyph.const 0) (Glyph.const 0) = 32768 / 255 := by
    norm_num [QR.calc_resonance, centered_dot_eq_sum, centered_sum_const_zero]
  have h3 : VLC.calc_resonance (Glyph.const 255) (Glyph.const 0) = -16256 / 255 := by
    norm_num [VLC.calc_resonance, centered_dot_eq_sum, centered_sum_const_255_zero]
  have h4 : QR.calc_resonance (Glyph.const 255) (Glyph.const 0) = -32512 / 255 := by
    norm_num [QR.calc_resonance, centered_dot_eq_sum, centered_sum_const_255_zero]
  refine ⟨h1, ?_, h2, ?_, h3, ?_, h4, ?_⟩
  · rw [h1]; norm_num
  · rw [h2]; norm_num
  · rw [h3]; norm_num
  · rw [h4]; norm_num

/-! ## Self comparison -/

/-- C7, the code at the failing input: for the signal of 64 bytes of value 1
compared with itself `calc_resonance` returns 16129/255 (about 63.25) in the
VLC node and 32258/255 (about 126.5) in the QR node: not 1, and outside the
interval `[0,1]` the source comments the result to be normalized to. -/
theorem calc_resonance_self_all_ones :
    VLC.calc_resonance (Glyph.const 1) (Glyph.const 1) = 16129 / 255 ∧
    VLC.calc_resonance (Glyph.const 1) (Glyph.const 1) ≠ 1 ∧
    1 < VLC.calc_resonance (Glyph.const 1) (Glyph.const 1) ∧
    QR.calc_resonance (Glyph.const 1) (Glyph.const 1) = 32258 / 255 ∧
    QR.calc_resonance (Glyph.const 1) (Glyph.const 1) ≠ 1 ∧
    1 < QR.calc_resonance (Glyph.const 1) (Glyph.const 1) := by
  have h1 : VLC.calc_resonance (Glyph.const 1) (Glyph.const 1) = 16129 / 255 := by
    norm_num [VLC.calc_resonance, centered_dot_eq_sum, centered_sum_const_one]
  have h2 : QR.calc_resonance (Glyph.const 1) (Glyph.const 1) = 32258 / 255 := by
    norm_num [QR.calc_resonance, centered_dot_eq_sum, centered_sum_const_one]
  refine ⟨h1, ?_, ?_, h2, ?_, ?_⟩
  · rw [h1]; norm_num
  · rw [h1]; norm_num
  · rw [h2]; norm_num
  · rw [h2]; norm_num

/-! ## The float resonance of the DPO node -/

/-- C8, counterexample: for `a` the signal of 64 ones and `b` the first unit
vector, `dot(a,b) = 1`, `norm(a) = 8` and `norm(b) = 1`; the normalized dot
product is `1 / (8 + 1e-6)` while `calc_resonance` returns `1 / (1 + 1e-6)`. -/
theorem dpo_calc_resonance_counterexample :
    DPO.normalized_dot Real.sqrt (fun _ => 1) (fun i => if i = 0 then 1 else 0)
      = 1 / (8 + 1 / 1000000) ∧
    DPO.calc_resonance Real.sqrt (fun _ => 1) (fun i => if i = 0 then 1 else 0)
      = some (1 / (1 + 1 / 1000000)) ∧
    DPO.calc_resonance Real.sqrt (fun _ => 1) (fun i => if i = 0 then 1 else 0)
      ≠ some (DPO.normalized_dot Real.sqrt (fun _ => 1) (fun i => if i = 0 then 1 else 0)) := by
  have hab : DPO.dot (fun _ => (1 : ℝ)) (fun i : Fin 64 => if i = 0 then (1 : ℝ) else 0) = 1 := by
    simp [DPO.dot]
  have haa : DPO.dot (fun _ : Fin 64 => (1 : ℝ)) (fun _ => (1 : ℝ)) = 64 := by
    simp [DPO.dot]
  have hbb : DPO.dot (fun i : Fin 64 => if i = 0 then (1 : ℝ) else 0)
      (fun i : Fin 64 => if i = 0 then (1 : ℝ) else 0) = 1 := by
    simp [DPO.dot]
  have h8 : Real.sqrt 64 = 8 := by
    rw [show (64 : ℝ) = 8 ^ 2 by norm_num]
    exact Real.sqrt_sq (by norm_num)
  have hn : DPO.normalized_dot Real.sqrt (fun _ => 1) (fun i => if i = 0 then 1 else 0)
      = 1 / (8 + 1 / 1000000) := by
    unfold DPO.normalized_dot
    rw [hab, haa, hbb, h8, Real.sqrt_one, mul_one]
  have hc : DPO.calc_resonance Real.sqrt (fun _ => 1) (fun i => if i = 0 then 1 else 0)
      = some (1 / (1 + 1 / 1000000)) := by
    rw [DPO.calc_resonance_real, hab]
    norm_num
  refine ⟨hn, hc, ?_⟩
  rw [hn, hc]
  norm_num

/-- C8, amended: over the real numbers `calc_resonance(a, b)` of the DPO node
is `dot(a,b) / (m * m + 1e-6)` where both norms are the same mock norm
`m = sqrt(dot(a,b))`, the square root of the cross dot product: that is
`dot(a,b) / (dot(a,b) + 1e-6)` when `dot(a,b) >= 0`, and not a number when
`dot(a,b) < 0`. -/
theorem dpo_calc_resonance_mock_norm (a b : Fin 64 → ℝ) :
    DPO.calc_resonance Real.sqrt a b
      = (if DPO.dot a b < 0 then none
         else some (DPO.dot a b
            / (Real.sqrt (DPO.dot a b) * Real.sqrt (DPO.dot a b) + 1 / 1000000))) ∧
    DPO.calc_resonance Real.sqrt a b
      = (if DPO.dot a b < 0 then none
         else some (DPO.dot a b / (DPO.dot a b + 1 / 1000000))) := by
  refine ⟨?_, DPO.calc_resonance_real a b⟩
  rw [DPO.calc_resonance_real]
  by_cases h : DPO.dot a b < 0
  · simp [h]
  · simp only [h, if_false]
    rw [Real.mul_self_sqrt (not_lt.mp h)]

/-! ## Orthogonal signals -/

/-- C9, counterexample: against the all-zero reference glyph of the QR
node's initial state every glyph has raw dot product `sum a[i] * b[i] = 0`.
For the glyph `127, 128, ..., 128` the centred products are
`(-1) * (-128) = 128` and 63 times 0, and `calc_resonance` returns
`128/8160 = 4/255`, not 0; `qr_work_handler` logs that score on its veto
branch. -/
theorem orthogonal_bytes_counterexample :
    raw_dot ⟨127 :: List.replicate 63 128, by decide⟩ QR.Node.init.ref_glyph = 0 ∧
    QR.calc_resonance ⟨127 :: List.replicate 63 128, by decide⟩ QR.Node.init.ref_glyph
      = 4 / 255 ∧
    QR.calc_resonance ⟨127 :: List.replicate 63 128, by decide⟩ QR.Node.init.ref_glyph ≠ 0 ∧
    QR.qr_work_handler ⟨1, ⟨127 :: List.replicate 63 128, by decide⟩, Glyph.const 0⟩
      = [.LOG_WRN (4 / 255), .gpio_pin_set .led_red 1, .k_sleep 200,
          .gpio_pin_set .led_red 0] := by
  have hs : centered_sum ⟨127 :: List.replicate 63 128, by decide⟩ (Glyph.const 0) = 128 := by
    decide
  have hr : QR.calc_resonance ⟨127 :: List.replicate 63 128, by decide⟩ QR.Node.init.ref_glyph
      = 4 / 255 := by
    show QR.calc_resonance ⟨127 :: List.replicate 63 128, by decide⟩ (Glyph.const 0) = 4 / 255
    norm_num [QR.calc_resonance, centered_dot_eq_sum, hs]
  refine ⟨by decide, hr, by rw [hr]; norm_num, ?_⟩
  have hr' : QR.calc_resonance ⟨127 :: List.replicate 63 128, by decide⟩ (Glyph.const 0)
      = 4 / 255 := hr
  unfold QR.qr_work_handler
  simp only [hr']
  unfold QR.qr_work_branch
  rw [if_neg (by norm_num [QGH_THRESHOLD])]

/-- C9, amended: orthogonality is meant of what `calc_resonance` multiplies.
When the centred dot product `sum (a[i] - 128) * (b[i] - 128)` of
`glyph_data` and `ref_glyph` is 0, the QR node's `calc_resonance` is 0 and
`qr_work_handler` takes the veto branch: warning log and red LED pulse, no
`bt_mesh_model_send`. -/
theorem orthogonal_signals_vetoed (s : QR.Node)
    (hs : centered_sum s.glyph_data s.ref_glyph = 0) :
    QR.calc_resonance s.glyph_data s.ref_glyph = 0 ∧
    QR.qr_work_handler s
      = [.LOG_WRN 0, .gpio_pin_set .led_red 1, .k_sleep 200, .gpio_pin_set .led_red 0] ∧
    (QR.qr_work_handler s).any Event.isSend = false := by
  have hr : QR.calc_resonance s.glyph_data s.ref_glyph = 0 := by
    unfold QR.calc_resonance
    rw [centered_dot_eq_sum, hs]
    norm_num
  have hw : QR.qr_work_handler s
      = [.LOG_WRN 0, .gpio_pin_set .led_red 1, .k_sleep 200, .gpio_pin_set .led_red 0] := by
    unfold QR.qr_work_handler
    simp only [hr]
    unfold QR.qr_work_branch
    rw [if_neg (by norm_num [QGH_THRESHOLD])]
  refine ⟨hr, hw, ?_⟩
  rw [hw]
  rfl

/-- Witness for C9: the received glyph `129, 127, 128, ..., 128`, centred
`1, -1, 0, ..., 0`, against the all-zero reference glyph, centred
`-128, ..., -128`: the centred dot product is `-128 + 128 = 0`. -/
theorem orthogonal_signals_vetoed_witness :
    centered_sum ⟨129 :: 127 :: List.replicate 62 128, by decide⟩ (Glyph.const 0) = 0 ∧
    QR.calc_resonance ⟨129 :: 127 :: List.replicate 62 128, by decide⟩ (Glyph.const 0) = 0 ∧
    QR.qr_work_handler ⟨1, ⟨129 :: 127 :: List.replicate 62 128, by decide⟩, Glyph.const 0⟩
      = [.LOG_WRN 0, .gpio_pin_set .led_red 1, .k_sleep 200, .gpio_pin_set .led_red 0] ∧
    (QR.qr_work_handler
      ⟨1, ⟨129 :: 127 :: List.replicate 62 128, by decide⟩, Glyph.const 0⟩).any Event.isSend
      = false :=
  ⟨by decide,
    orthogonal_signals_vetoed
      ⟨1, ⟨129 :: 127 :: List.replicate 62 128, by decide⟩, Glyph.const 0⟩ (by decide)⟩

/-! ## Idempotence of the VLC handler -/

/-- C10, the code at the failing input: the 64-byte message
`255, 144, ..., 144` passes the guard `len < 64` and the handler reads
`buf[64]`, the byte that lies behind the message, as the last glyph byte.
With the byte 0 behind the message the glyph energy is 32512, the coherence
is 1 and the handler logs ALLOW and replies with score byte 255; with the
byte 128 behind it the energy is 16128, the coherence is 84/85 and the
handler logs the veto and replies with score byte 252.  Decision, reply and
stored state are not determined by the message. -/
theorem vlc_msg_handler_depends_on_byte_behind_message :
    (255 :: List.replicate 63 (144 : Byte)).length = 64 ∧
    VLC.vlc_msg_handler VLC.Node.init (255 :: List.replicate 63 144)
      = .error .read_past_buffer ∧
    VLC.vlc_msg_handler VLC.Node.init (255 :: List.replicate 63 144 ++ [0])
      = .ok (⟨1, ⟨List.replicate 63 144 ++ [0], by decide⟩⟩,
          [.LOG_INF 1, .bt_mesh_model_send (255 :: List.replicate 63 144 ++ [0])]) ∧
    VLC.vlc_msg_handler VLC.Node.init (255 :: List.replicate 63 144 ++ [128])
      = .ok (⟨84 / 85, ⟨List.replicate 63 144 ++ [128], by decide⟩⟩,
          [.LOG_ERR (84 / 85),
           .bt_mesh_model_send (252 :: List.replicate 63 144 ++ [128])]) := by
  have hs1 : centered_sum ⟨List.replicate 63 144 ++ [0], by decide⟩
      ⟨List.replicate 63 144 ++ [0], by decide⟩ = 32512 := by decide
  have hs2 : centered_sum ⟨List.replicate 63 144 ++ [128], by decide⟩
      ⟨List.replicate 63 144 ++ [128], by decide⟩ = 16128 := by decide
  have hb : ((255 : Byte).val : ℚ) / 255 = 1 := by
    rw [show (255 : Byte).val = 255 from rfl]
    norm_num
  have hc1 : VLC.coherence_of 255 ⟨List.replicate 63 144 ++ [0], by decide⟩ = 1 := by
    unfold VLC.coherence_of VLC.calc_resonance
    rw [centered_dot_eq_sum, hs1, hb]
    norm_num
  have hc2 : VLC.coherence_of 255 ⟨List.replicate 63 144 ++ [128], by decide⟩ = 84 / 85 := by
    unfold VLC.coherence_of VLC.calc_resonance
    rw [centered_dot_eq_sum, hs2, hb]
    norm_num
  refine ⟨by decide, by rfl, ?_, ?_⟩
  · have h := VLC.vlc_msg_handler_accept VLC.Node.init
      (255 :: List.replicate 63 144 ++ [0]) 255 255
      ⟨List.replicate 63 144 ++ [0], by decide⟩ (by decide) (by decide) (by decide)
      (by
        rw [hc1]
        exact f2u8_of_floor _ 255
          (by rw [show (255 : Byte).val = 255 from rfl]; norm_num)
          (by rw [show (255 : Byte).val = 255 from rfl]; norm_num))
    rw [hc1] at h
    rw [h, if_neg (by norm_num [QGH_THRESHOLD])]
    rfl
  · have h := VLC.vlc_msg_handler_accept VLC.Node.init
      (255 :: List.replicate 63 144 ++ [128]) 255 252
      ⟨List.replicate 63 144 ++ [128], by decide⟩ (by decide) (by decide) (by decide)
      (by
        rw [hc2]
        exact f2u8_of_floor _ 252
          (by rw [show (252 : Byte).val = 252 from rfl]; norm_num)
          (by rw [show (252 : Byte).val = 252 from rfl]; norm_num))
    rw [hc2] at h
    rw [h, if_pos (by norm_num [QGH_THRESHOLD])]
    rfl

/-! ## The reply's score byte -/

/-- C11, counterexample: for score byte 0 and a glyph of 64 bytes of value
136 the VLC node computes `R_local = 4096/16320`, whose scaled value is 64,
yet the reply's score byte is 0; for score byte 0 and the glyph
`127, 128, ..., 128` the QR node in its initial state computes
`R_local = 128/8160`, whose scaled value is 4, yet the reply's score byte
is 0.  The glyph bytes of both replies are the inbound ones. -/
theorem reply_score_byte_counterexample :
    f2u8 (VLC.calc_resonance (Glyph.const 136) (Glyph.const 136) * 255) = some 64 ∧
    VLC.vlc_msg_handler VLC.Node.init (0 :: List.replicate 64 136)
      = .ok (⟨0, Glyph.const 136⟩,
          [.LOG_ERR 0, .bt_mesh_model_send (0 :: List.replicate 64 136)]) ∧
    f2u8 (QR.calc_resonance ⟨127 :: List.replicate 63 128, by decide⟩ QR.Node.init.ref_glyph * 255)
      = some 4 ∧
    QR.qr_claim_handler QR.Node.init (0 :: 127 :: List.replicate 63 128)
      = .ok (⟨0, ⟨127 :: List.replicate 63 128, by decide⟩, Glyph.const 0⟩,
          [.bt_mesh_model_send (0 :: 127 :: List.replicate 63 128), .LOG_INF 0]) := by
  have hs1 : centered_sum (Glyph.const 136) (Glyph.const 136) = 4096 := by decide
  have hs2 : centered_sum ⟨127 :: List.replicate 63 128, by decide⟩ (Glyph.const 0) = 128 := by
    decide
  have hr1 : VLC.calc_resonance (Glyph.const 136) (Glyph.const 136) = 4096 / 16320 := by
    norm_num [VLC.calc_resonance, centered_dot_eq_sum, hs1]
  have hr2 : QR.calc_resonance ⟨127 :: List.replicate 63 128, by decide⟩ QR.Node.init.ref_glyph
      = 128 / 8160 := by
    show QR.calc_resonance ⟨127 :: List.replicate 63 128, by decide⟩ (Glyph.const 0) = 128 / 8160
    norm_num [QR.calc_resonance, centered_dot_eq_sum, hs2]
  have hz : ((0 : Byte).val : ℚ) / 255 = 0 := by norm_num
  have hv : VLC.coherence_of 0 (Glyph.const 136) = 0 := by
    unfold VLC.coherence_of
    rw [hr1, hz]
    norm_num
  have hq : QR.coherence_of QR.Node.init.ref_glyph 0 ⟨127 :: List.replicate 63 128, by decide⟩
      = 0 := by
    unfold QR.coherence_of
    rw [hr2, hz]
    norm_num
  refine ⟨?_, ?_, ?_, ?_⟩
  · rw [hr1]
    exact f2u8_of_floor _ 64
      (by rw [show (64 : Byte).val = 64 from rfl]; norm_num)
      (by rw [show (64 : Byte).val = 64 from rfl]; norm_num)
  · have h := VLC.vlc_msg_handler_accept VLC.Node.init (0 :: List.replicate 64 136) 0 0
      (Glyph.const 136) (by decide) (by decide) (by decide)
      (by rw [hv]; exact f2u8_of_floor _ 0 (by norm_num) (by norm_num))
    rw [hv] at h
    rw [h]
    simp [QGH_THRESHOLD]
    rfl
  · rw [hr2]
    exact f2u8_of_floor _ 4
      (by rw [show (4 : Byte).val = 4 from rfl]; norm_num)
      (by rw [show (4 : Byte).val = 4 from rfl]; norm_num)
  · have h := QR.qr_claim_handler_accept QR.Node.init (0 :: 127 :: List.replicate 63 128) 0 0
      ⟨127 :: List.replicate 63 128, by decide⟩ (by decide) (by decide) (by decide)
      (by rw [hq]; exact f2u8_of_floor _ 0 (by norm_num) (by norm_num))
    rw [hq] at h
    rw [h]
    rfl

/-- C11, amended: for every inbound message of at least 65 bytes the reply
has the inbound framing, 65 bytes made of one score byte followed by the
inbound signal bytes `buf[1..64]`, and its score byte is the stored
`mesh_coherence = fminf(R_local, R_neighbor)` scaled to a byte, that is
`trunc(min(R_local, buf[0]/255) * 255)`: the locally computed score capped
by the neighbour's score.  `qr_claim_handler` builds that reply unless the
scaled value is at most -1, where the conversion is undefined. -/
theorem reply_frame_and_score_byte (s : VLC.Node) (q : QR.Node) (buf : List Byte)
    (h : 65 ≤ buf.length) :
    ∃ b0 g, buf.get? 0 = some b0 ∧ memcpy64 buf 1 = some g ∧
      g.val = (buf.drop 1).take 64 ∧
      (∃ r0 s' log,
        f2u8 (min (VLC.calc_resonance g g) ((b0.val : ℚ) / 255) * 255) = some r0 ∧
        VLC.vlc_msg_handler s buf
          = .ok (s', [log, .bt_mesh_model_send (r0 :: (buf.drop 1).take 64)]) ∧
        (r0 :: (buf.drop 1).take 64).length = 65) ∧
      (if min (QR.calc_resonance g q.ref_glyph) ((b0.val : ℚ) / 255) * 255 ≤ -1 then
        QR.qr_claim_handler q buf = .error .float_cast_out_of_range
       else ∃ r0 q',
        f2u8 (min (QR.calc_resonance g q.ref_glyph) ((b0.val : ℚ) / 255) * 255) = some r0 ∧
        QR.qr_claim_handler q buf
          = .ok (q', [.bt_mesh_model_send (r0 :: (buf.drop 1).take 64),
                      .LOG_INF q'.mesh_coherence]) ∧
        (r0 :: (buf.drop 1).take 64).length = 65) := by
  obtain ⟨b0, hb⟩ := get?_zero_of_pos buf (by omega)
  obtain ⟨g, hg, hgv⟩ := memcpy64_of_le buf 1 (by omega)
  have hlen : (buf.drop 1).take 64 = g.val := hgv.symm
  refine ⟨b0, g, hb, hg, hgv, ?_, ?_⟩
  · have hbd := VLC.coherence_of_bounds b0 g
    obtain ⟨r0, hr⟩ := f2u8_isSome (VLC.coherence_of b0 g * 255)
      (by nlinarith [hbd.1]) (by nlinarith [hbd.2])
    refine ⟨r0, ⟨VLC.coherence_of b0 g, g⟩,
      (if VLC.coherence_of b0 g < QGH_THRESHOLD then Event.LOG_ERR (VLC.coherence_of b0 g)
        else Event.LOG_INF (VLC.coherence_of b0 g)), hr, ?_, ?_⟩
    · rw [hlen]
      exact VLC.vlc_msg_handler_accept s buf b0 r0 g (by omega) hb hg hr
    · rw [hlen, List.length_cons, g.property]
  · show (if QR.coherence_of q.ref_glyph b0 g * 255 ≤ -1 then _ else _)
    by_cases hc : QR.coherence_of q.ref_glyph b0 g * 255 ≤ -1
    · rw [if_pos hc]
      exact QR.qr_claim_handler_fault q buf b0 g h hb hg (f2u8_none_of_le _ hc)
    · rw [if_neg hc]
      have hle := QR.coherence_of_le_one q.ref_glyph b0 g
      obtain ⟨r0, hr⟩ := f2u8_isSome (QR.coherence_of q.ref_glyph b0 g * 255)
        (lt_of_not_ge hc) (by nlinarith [hle])
      refine ⟨r0, ⟨QR.coherence_of q.ref_glyph b0 g, g, q.ref_glyph⟩, hr, ?_, ?_⟩
      · rw [hlen]
        exact QR.qr_claim_handler_accept q buf b0 r0 g h hb hg hr
      · rw [hlen, List.length_cons, g.property]

/-- Witness for C11: the 65-byte message of bytes 255 at the initial states. -/
theorem reply_frame_and_score_byte_witness :
    65 ≤ (List.replicate 65 (255 : Byte)).length ∧
    ∃ b0 g, (List.replicate 65 (255 : Byte)).get? 0 = some b0 ∧
      memcpy64 (List.replicate 65 (255 : Byte)) 1 = some g ∧
      g.val = ((List.replicate 65 (255 : Byte)).drop 1).take 64 ∧
      (∃ r0 s' log,
        f2u8 (min (VLC.calc_resonance g g) ((b0.val : ℚ) / 255) * 255) = some r0 ∧
        VLC.vlc_msg_handler VLC.Node.init (List.replicate 65 (255 : Byte))
          = .ok (s', [log, .bt_mesh_model_send
              (r0 :: ((List.replicate 65 (255 : Byte)).drop 1).take 64)]) ∧
        (r0 :: ((List.replicate 65 (255 : Byte)).drop 1).take 64).length = 65) ∧
      (if min (QR.calc_resonance g QR.Node.init.ref_glyph) ((b0.val : ℚ) / 255) * 255 ≤ -1 then
        QR.qr_claim_handler QR.Node.init (List.replicate 65 (255 : Byte))
          = .error .float_cast_out_of_range
       else ∃ r0 q',
        f2u8 (min (QR.calc_resonance g QR.Node.init.ref_glyph) ((b0.val : ℚ) / 255) * 255)
          = some r0 ∧
        QR.qr_claim_handler QR.Node.init (List.replicate 65 (255 : Byte))
          = .ok (q', [.bt_mesh_model_send
              (r0 :: ((List.replicate 65 (255 : Byte)).drop 1).take 64),
                      .LOG_INF q'.mesh_coherence]) ∧
        (r0 :: ((List.replicate 65 (255 : Byte)).drop 1).take 64).length = 65) :=
  ⟨by decide, reply_frame_and_score_byte VLC.Node.init QR.Node.init
    (List.replicate 65 255) (by decide)⟩

/-! ## The triple-redundancy voter -/

/-- C12: `tmr_vote` is a majority voter: a value held by at least two of the
three inputs is the result, and the result is always one of the inputs. -/
theorem tmr_vote_majority (a b c : ℚ) :
    (∀ v, (a = v ∧ b = v) ∨ (a = v ∧ c = v) ∨ (b = v ∧ c = v) → tmr_vote a b c = v) ∧
    (tmr_vote a b c = a ∨ tmr_vote a b c = b ∨ tmr_vote a b c = c) := by
  unfold tmr_vote
  constructor
  · intro v hv
    split_ifs with hab hac
    · rcases hv with ⟨h1, _⟩ | ⟨h1, _⟩ | ⟨h1, _⟩
      · exact h1
      · exact h1
      · rw [hab]; exact h1
    · rcases hv with ⟨h1, h2⟩ | ⟨h1, _⟩ | ⟨_, h2⟩
      · exact absurd (h1.trans h2.symm) hab
      · exact h1
      · rw [hac]; exact h2
    · rcases hv with ⟨_, h2⟩ | ⟨h1, h2⟩ | ⟨h1, _⟩
      · exact h2
      · exact absurd (h1.trans h2.symm) hac
      · exact h1
  · split_ifs
    · exact Or.inl rfl
    · exact Or.inl rfl
    · exact Or.inr (Or.inl rfl)

/-- Witness for C12: the inputs 1, 2, 2, where the last two agree. -/
theorem tmr_vote_majority_witness :
    (((1 : ℚ) = 2 ∧ (2 : ℚ) = 2) ∨ ((1 : ℚ) = 2 ∧ (2 : ℚ) = 2) ∨ ((2 : ℚ) = 2 ∧ (2 : ℚ) = 2)) ∧
    tmr_vote 1 2 2 = 2 :=
  ⟨Or.inr (Or.inr ⟨rfl, rfl⟩), (tmr_vote_majority 1 2 2).1 2 (Or.inr (Or.inr ⟨rfl, rfl⟩))⟩

/-! ## The decision of the VLC handler -/

/-- C14: `vlc_msg_handler` compares the received glyph with itself, so its
decision is a function of the message alone.  For every message of at least
65 bytes the stored coherence reaches the threshold, and the ALLOW log is
written, exactly when the score byte `buf[0]` is 255 and the glyph energy
`sum (buf[1+i] - 128)^2` is at least 16272; otherwise, and so for every
score byte up to 254, the veto log is written. -/
theorem vlc_allow_iff_full_score_and_energy (s : VLC.Node) (buf : List Byte)
    (h : 65 ≤ buf.length) :
    ∃ b0 g r0, buf.get? 0 = some b0 ∧ memcpy64 buf 1 = some g ∧
      g.val = (buf.drop 1).take 64 ∧
      (VLC.coherence_of b0 g ≥ QGH_THRESHOLD ↔ b0 = 255 ∧ 16272 ≤ energy g) ∧
      VLC.vlc_msg_handler s buf
        = .ok (⟨VLC.coherence_of b0 g, g⟩,
            [if b0 = 255 ∧ 16272 ≤ energy g then Event.LOG_INF (VLC.coherence_of b0 g)
              else Event.LOG_ERR (VLC.coherence_of b0 g),
             .bt_mesh_model_send (r0 :: g.val)]) ∧
      (254 < b0.val ∨
        VLC.vlc_msg_handler s buf
          = .ok (⟨VLC.coherence_of b0 g, g⟩,
              [.LOG_ERR (VLC.coherence_of b0 g), .bt_mesh_model_send (r0 :: g.val)])) := by
  obtain ⟨b0, hb⟩ := get?_zero_of_pos buf (by omega)
  obtain ⟨g, hg, hgv⟩ := memcpy64_of_le buf 1 (by omega)
  have hbd := VLC.coherence_of_bounds b0 g
  obtain ⟨r0, hr⟩ := f2u8_isSome (VLC.coherence_of b0 g * 255)
    (by nlinarith [hbd.1]) (by nlinarith [hbd.2])
  have hiff := VLC.threshold_le_coherence_iff b0 g
  have hrun := VLC.vlc_msg_handler_accept s buf b0 r0 g (by omega) hb hg hr
  have hmain : VLC.vlc_msg_handler s buf
      = .ok (⟨VLC.coherence_of b0 g, g⟩,
          [if b0 = 255 ∧ 16272 ≤ energy g then Event.LOG_INF (VLC.coherence_of b0 g)
            else Event.LOG_ERR (VLC.coherence_of b0 g),
           .bt_mesh_model_send (r0 :: g.val)]) := by
    rw [hrun]
    by_cases hc : b0 = 255 ∧ 16272 ≤ energy g
    · rw [if_pos hc, if_neg (not_lt.mpr (hiff.mpr hc))]
    · rw [if_neg hc, if_pos (lt_of_not_ge (fun hge => hc (hiff.mp hge)))]
  refine ⟨b0, g, r0, hb, hg, hgv, hiff, hmain, ?_⟩
  by_cases h254 : 254 < b0.val
  · exact Or.inl h254
  · right
    rw [hmain, if_neg]
    rintro ⟨h255, -⟩
    apply h254
    rw [h255]
    decide

/-- Witness for C14: the 65-byte message of bytes 255, whose glyph energy is
64 * 127^2 = 1032256, at the initial state. -/
theorem vlc_allow_iff_full_score_and_energy_witness :
    65 ≤ (List.replicate 65 (255 : Byte)).length ∧
    ∃ b0 g r0, (List.replicate 65 (255 : Byte)).get? 0 = some b0 ∧
      memcpy64 (List.replicate 65 (255 : Byte)) 1 = some g ∧
      g.val = ((List.replicate 65 (255 : Byte)).drop 1).take 64 ∧
      (VLC.coherence_of b0 g ≥ QGH_THRESHOLD ↔ b0 = 255 ∧ 16272 ≤ energy g) ∧
      VLC.vlc_msg_handler VLC.Node.init (List.replicate 65 (255 : Byte))
        = .ok (⟨VLC.coherence_of b0 g, g⟩,
            [if b0 = 255 ∧ 16272 ≤ energy g then Event.LOG_INF (VLC.coherence_of b0 g)
              else Event.LOG_ERR (VLC.coherence_of b0 g),
             .bt_mesh_model_send (r0 :: g.val)]) ∧
      (254 < b0.val ∨
        VLC.vlc_msg_handler VLC.Node.init (List.replicate 65 (255 : Byte))
          = .ok (⟨VLC.coherence_of b0 g, g⟩,
              [.LOG_ERR (VLC.coherence_of b0 g), .bt_mesh_model_send (r0 :: g.val)])) :=
  ⟨by decide, vlc_allow_iff_full_score_and_energy VLC.Node.init
    (List.replicate 65 255) (by decide)⟩

/-! ## The DPO handler -/

/-- C13: over the real numbers `dpo_alignment_handler` never relays.  For
every inbound message of at least 128 bytes the logits are
`policy_logits[i] = buf[i] / 255` and `ref_logits[i] = 0.9 * policy_logits[i]`,
so `delta` lies in `[-0.01, 0.01]`, `loss = log(1 + exp(-delta))` exceeds
0.003 and `R = 1 - loss` is below the threshold 0.997: the handler writes
the veto warning and returns, making no `bt_mesh_model_send` call. -/
theorem dpo_alignment_handler_always_vetoes (reply2 reply3 : Byte) (s : DPO.Node ℝ)
    (buf : List Byte) (h : 128 ≤ buf.length) :
    ∃ (s' : DPO.Node ℝ) (delta loss : ℝ),
      (∀ i : Fin 128, s'.policy_logits i
          = (((buf.get ⟨i.val, lt_of_lt_of_le i.isLt h⟩).val : ℕ) : ℝ) / 255 ∧
        s'.ref_logits i = s'.policy_logits i * (9 / 10)) ∧
      delta = DPO.dpo_delta (s'.policy_logits 0) (s'.policy_logits 64)
        (s'.ref_logits 0) (s'.ref_logits 64) ∧
      loss = DPO.dpo_loss Real.log Real.exp (s'.policy_logits 0) (s'.policy_logits 64)
        (s'.ref_logits 0) (s'.ref_logits 64) ∧
      -(1 / 100) ≤ delta ∧ delta ≤ 1 / 100 ∧
      loss = Real.log (1 + Real.exp (-delta)) ∧
      3 / 1000 < loss ∧
      1 - loss < 997 / 1000 ∧
      DPO.dpo_alignment_handler Real.log Real.exp reply2 reply3 s buf
        = .ok (s', [.LOG_WRN (1 - loss)]) := by
  obtain ⟨prompt, hp, -⟩ := memcpy64_of_le buf 0 (by omega)
  obtain ⟨winner, hw, -⟩ := memcpy64_of_le buf 64 (by omega)
  have hlen : ¬ buf.length < 128 := by omega
  let policy : Fin 128 → ℝ := fun i =>
    (((buf.get ⟨i.val % buf.length, Nat.mod_lt _ (by omega)⟩).val : ℕ) : ℝ) / 255
  have hpol : ∀ i : Fin 128, policy i
      = (((buf.get ⟨i.val, lt_of_lt_of_le i.isLt h⟩).val : ℕ) : ℝ) / 255 := by
    intro i
    have hi : i.val % buf.length = i.val := Nat.mod_eq_of_lt (lt_of_lt_of_le i.isLt h)
    show (((buf.get ⟨i.val % buf.length, _⟩).val : ℕ) : ℝ) / 255 = _
    simp only [hi]
  have hb : ∀ i, 0 ≤ policy i ∧ policy i ≤ 1 := fun i => byte_ratio_bounds_real _
  have hd := DPO.dpo_delta_bounds (policy 0) (policy 64) (hb 0) (hb 64)
  have hloss := DPO.dpo_loss_real (policy 0) (policy 64)
    (policy 0 * (9 / 10)) (policy 64 * (9 / 10))
  have hgt := log_one_add_exp_neg_lower_bound _ hd.2
  rw [← hloss] at hgt
  have hR : 1 - DPO.dpo_loss Real.log Real.exp (policy 0) (policy 64)
      (policy 0 * (9 / 10)) (policy 64 * (9 / 10)) < 997 / 1000 := by linarith
  refine ⟨⟨prompt, winner, policy, fun i => policy i * (9 / 10)⟩, _, _,
    fun i => ⟨hpol i, rfl⟩, rfl, rfl, hd.1, hd.2, hloss, hgt, hR, ?_⟩
  unfold DPO.dpo_alignment_handler
  rw [dif_neg hlen, hp, hw]
  exact if_pos hR

/-- Witness for C13: the 128-byte all-zero message. -/
theorem dpo_alignment_handler_always_vetoes_witness :
    128 ≤ (List.replicate 128 (0 : Byte)).length ∧
    ∃ (s' : DPO.Node ℝ) (loss : ℝ),
      DPO.dpo_alignment_handler Real.log Real.exp 0 0
          ⟨Glyph.const 0, Glyph.const 0, fun _ => 0, fun _ => 0⟩ (List.replicate 128 0)
        = .ok (s', [.LOG_WRN (1 - loss)]) ∧
      1 - loss < 997 / 1000 :=
  ⟨by simp, by
    obtain ⟨s', _, loss, _, _, _, _, _, _, _, hR, hrun⟩ :=
      dpo_alignment_handler_always_vetoes 0 0
        ⟨Glyph.const 0, Glyph.const 0, fun _ => 0, fun _ => 0⟩ (List.replicate 128 0)
        (by simp)
    exact ⟨s', loss, hrun, hR⟩⟩

/-! ## The ART update -/

